import Mathlib

/-!
Verification of the managed runtime/server provisioning subsystem of
`lsp_utils` (Sublime Text LSP utilities), shallowly embedded from
`src/st3/lsp_utils/server_npm_resource.py` and
`src/st3/lsp_utils/_client_handler/abstract_plugin.py`.

External effects (filesystem reads, the npm process, the Sublime API) are
modelled as explicit world records; each Python method becomes a pure Lean
function from a world and the current object state to the new state and a
result in `Except` (an `Except.error` models a raised Python exception).
-/

namespace LspUtils

/-- Modelled from the spec: `ServerStatus` — the tri-state readiness signal
from `server_resource_interface.py` (a file not present in the source slice);
the spec gives its values as UNINITIALIZED, READY, ERROR. -/
inductive ServerStatus
| uninitialized
| ready
| error
deriving DecidableEq, Repr

/-- File contents as a byte sequence. -/
abbrev Bytes := List Nat

/-- Outcome of reading a manifest file: the bytes, a `FileNotFoundError`,
or any other I/O error (e.g. `PermissionError`) carrying a message. -/
inductive ReadResult
| ok (content : Bytes)
| fileNotFound
| ioError (msg : String)
deriving DecidableEq, Repr

/-- True exactly on the non-`FileNotFoundError` failure outcome. -/
def ReadResult.faulty : ReadResult → Bool
| .ioError _ => true
| _ => false

/-- The observations `ServerNpmResource.needs_installation` makes of the
outside world in one call: whether `path.isdir(server_dest/node_modules)`
holds, the result of `ResourcePath(server_src, 'package.json').read_bytes()`,
the result of `open(server_dest/package.json, 'rb').read()`, and the `md5`
hex digest function applied to the bytes read. -/
structure ManifestWorld where
  markerDirExists : Bool
  readSrcManifest : ReadResult
  readDstManifest : ReadResult
  md5hex : Bytes → String

/-- Embedding of `ServerNpmResource.needs_installation` (server_npm_resource.py,
lines 123-139). `installed` starts false; when the `node_modules` marker
directory exists, both manifests are read inside a `try` that catches only
`FileNotFoundError`, and `installed` becomes true exactly when the md5 hex
digests coincide. When `installed` is true the status is set to READY and
the call returns false; otherwise the status is untouched and the call
returns true. A propagating exception is `Except.error`. -/
def needs_installation (w : ManifestWorld) (status : ServerStatus) :
    ServerStatus × Except String Bool :=
  let installed : Except String Bool :=
    if w.markerDirExists then
      match w.readSrcManifest, w.readDstManifest with
      | .ioError m, _ => .error m
      | .fileNotFound, _ => .ok false
      | .ok _, .ioError m => .error m
      | .ok _, .fileNotFound => .ok false
      | .ok s, .ok d => .ok (decide (w.md5hex s = w.md5hex d))
    else .ok false
  match installed with
  | .error m => (status, .error m)
  | .ok true => (ServerStatus.ready, .ok false)
  | .ok false => (status, .ok true)

/-- `ServerNpmResource.get_status` (server_npm_resource.py, lines 120-121)
returns the current `_status` field unchanged. -/
def get_status (status : ServerStatus) : ServerStatus := status

/-- A directory tree, as relevant to staging: regular files (relative path
from the root, with byte contents) and subdirectories (relative paths). -/
structure Tree where
  files : List (List String × Bytes)
  dirs : List (List String)
deriving DecidableEq, Repr

/-- `path.isdir(root/p)` for a path `p` relative to this tree's root. -/
def Tree.hasDir (t : Tree) (p : List String) : Bool := t.dirs.contains p

/-- The outside world of `ServerNpmResource.install_or_update`: the
read-only source asset tree under `server_src`, and the external
`npm install` process, which given the staged destination tree either
produces the resulting tree or fails with its error output. The process
is a function of the staged tree: one fixed environment per world. -/
structure PackageWorld where
  srcTree : Tree
  npm_install : Tree → Except String Tree

/-- Mutable state of one `ServerNpmResource`: the destination directory
`server_dest` (`none` when absent on disk) and the `_status` field. -/
structure PackageState where
  server_dest : Option Tree
  status : ServerStatus

/-- Observable steps of `install_or_update`, in the order they happen. -/
inductive InstallEvent
| rmtree
| copytree
| checkMarker (present : Bool)
| npmInstall
deriving DecidableEq, Repr

/-- Embedding of `ServerNpmResource.install_or_update` (server_npm_resource.py,
lines 141-151). Steps, in source order: `shutil.rmtree(server_dest,
ignore_errors=True)` removes the old destination (the prior state is
discarded); `ResourcePath(server_src).copytree(server_dest, exist_ok=True)`
makes the destination a copy of the source tree; `path.isdir(server_dest/
node_modules)` is then tested on that fresh copy; only when absent is
`npm_install` invoked, and a failure there sets `_status = ERROR` and
re-raises the error, while otherwise `_status = READY`. The returned list
records the steps in order. -/
def install_or_update (w : PackageWorld) (_st : PackageState) :
    PackageState × Except String Unit × List InstallEvent :=
  let dest : Option Tree := some w.srcTree
  let dependencies_installed :=
    match dest with
    | some t => t.hasDir ["node_modules"]
    | none => false
  let trace := [InstallEvent.rmtree, InstallEvent.copytree,
    InstallEvent.checkMarker dependencies_installed]
  if dependencies_installed then
    ({ server_dest := dest, status := ServerStatus.ready }, Except.ok (), trace)
  else
    match w.npm_install w.srcTree with
    | Except.ok t =>
      ({ server_dest := some t, status := ServerStatus.ready }, Except.ok (),
        trace ++ [InstallEvent.npmInstall])
    | Except.error e =>
      ({ server_dest := dest, status := ServerStatus.error }, Except.error e,
        trace ++ [InstallEvent.npmInstall])

/-- Modelled from the spec: `SemanticVersion` from `helpers.py` (a file not
present in the source slice) — an ordered triple (major, minor, patch). -/
abbrev SemanticVersion := Nat × Nat × Nat

/-- Lexicographic strict order on version triples (Python tuple `<`). -/
def verLt (a b : SemanticVersion) : Bool :=
  if a.1 < b.1 then true
  else if b.1 < a.1 then false
  else if a.2.1 < b.2.1 then true
  else if b.2.1 < a.2.1 then false
  else decide (a.2.2 < b.2.2)

/-- Embedding of `ServerNpmResource.check_node_version`
(server_npm_resource.py, lines 84-89): resolve the distribution's version
(which may itself raise), then raise when it is below the minimum. -/
def check_node_version (resolve_version : Except String SemanticVersion)
    (minimum_node_version : SemanticVersion) : Except String Unit :=
  match resolve_version with
  | Except.error e => Except.error e
  | Except.ok node_version =>
    if verLt node_version minimum_node_version then
      Except.error "Node version requirement failed"
    else Except.ok ()

/-- Observations of a `NodeDistributionPATH` instance (class from
`node_distribution.py`, not present in the source slice; used here only
through the two methods `resolve_node_distribution` calls on it):
`node_exists()` and `resolve_version()` (the latter may raise, e.g. on a
malformed version string). -/
structure SystemNode where
  node_exists : Bool
  resolve_version : Except String SemanticVersion

/-- Observations of a `NodeDistributionLocal` instance rooted at
`storage_path/lsp_utils/node-dist`: `node_exists()` before any install,
the `sublime.ok_cancel_dialog` answer, the outcome of `install_node()`,
`node_exists()` re-queried after a successful install, and
`resolve_version()`. -/
structure LocalNode where
  node_exists_before : Bool
  dialog_answer : Bool
  install_node : Except String Unit
  node_exists_after_install : Bool
  resolve_version : Except String SemanticVersion

/-- World of one `resolve_node_distribution` call: the
`node_distributions` setting list, the two distribution kinds'
observations, and the minimum version floor. -/
structure ResolveWorld where
  node_distributions : List String
  system : SystemNode
  localNode : LocalNode
  minimum_node_version : SemanticVersion

/-- Which distribution class a successful resolution returned. -/
inductive NodeDistKind
| path
| localDist
deriving DecidableEq, Repr

/-- User-visible actions of `resolve_node_distribution`. `log` is
`log_and_show_message` — modelled from the spec ("discarding with a logged
warning"), since `helpers.py` is not present in the source slice. `dialog`
is the `sublime.ok_cancel_dialog` prompt, `installNode` the
`install_node()` download/extract. -/
inductive ResolveEvent
| log
| dialog
| installNode
deriving DecidableEq, Repr

/-- Embedding of the candidate loop of
`ServerNpmResource.resolve_node_distribution` (server_npm_resource.py,
lines 50-82), recursing over the remaining `node_distributions` entries.
Returns the chosen distribution (or `none`, mirroring both the bare
`return` statements and falling off the loop) together with the ordered
list of user-visible events. On the `local` branch with
`node_exists_before = true`, the source's second `node_exists()` call is
necessarily true, so the version check runs directly. -/
def resolve_node_distribution_go (w : ResolveWorld) :
    List String → Option NodeDistKind × List ResolveEvent
| [] => (none, [])
| distribution :: rest =>
  if distribution = "system" then
    if w.system.node_exists then
      match check_node_version w.system.resolve_version w.minimum_node_version with
      | Except.ok _ => (some NodeDistKind.path, [])
      | Except.error _ =>
        let r := resolve_node_distribution_go w rest
        (r.1, ResolveEvent.log :: r.2)
    else resolve_node_distribution_go w rest
  else if distribution = "local" then
    if w.localNode.node_exists_before = false then
      if w.localNode.dialog_answer = false then
        (none, [ResolveEvent.dialog])
      else
        match w.localNode.install_node with
        | Except.error _ =>
          (none, [ResolveEvent.dialog, ResolveEvent.installNode, ResolveEvent.log])
        | Except.ok _ =>
          if w.localNode.node_exists_after_install then
            match check_node_version w.localNode.resolve_version w.minimum_node_version with
            | Except.ok _ =>
              (some NodeDistKind.localDist, [ResolveEvent.dialog, ResolveEvent.installNode])
            | Except.error _ =>
              let r := resolve_node_distribution_go w rest
              (r.1, ResolveEvent.dialog :: ResolveEvent.installNode :: ResolveEvent.log :: r.2)
          else
            let r := resolve_node_distribution_go w rest
            (r.1, ResolveEvent.dialog :: ResolveEvent.installNode :: r.2)
    else
      match check_node_version w.localNode.resolve_version w.minimum_node_version with
      | Except.ok _ => (some NodeDistKind.localDist, [])
      | Except.error _ =>
        let r := resolve_node_distribution_go w rest
        (r.1, ResolveEvent.log :: r.2)
  else resolve_node_distribution_go w rest

/-- `ServerNpmResource.resolve_node_distribution` over the configured
`node_distributions` list. -/
def resolve_node_distribution (w : ResolveWorld) :
    Option NodeDistKind × List ResolveEvent :=
  resolve_node_distribution_go w w.node_distributions

/-- The class-level cache of `ServerNpmResource`:
`_node_distribution_resolved` and `_node_distribution`
(server_npm_resource.py, lines 29-33). -/
structure NodeResolutionCache where
  node_distribution_resolved : Bool
  node_distribution : Option NodeDistKind
deriving DecidableEq, Repr

/-- Embedding of `ServerNpmResource.create` (server_npm_resource.py, lines
35-48): when `_node_distribution_resolved` is false, run
`resolve_node_distribution` and set the flag to true — unconditionally,
whether or not resolution produced a distribution; then return a resource
(identified by its distribution kind) iff the cached distribution is
present. -/
def create (w : ResolveWorld) (cache : NodeResolutionCache) :
    Option NodeDistKind × NodeResolutionCache :=
  let cache :=
    if cache.node_distribution_resolved = false then
      { node_distribution_resolved := true,
        node_distribution := (resolve_node_distribution w).1 }
    else cache
  match cache.node_distribution with
  | some d => (some d, cache)
  | none => (none, cache)

/-- Inputs of `ClientHandler.can_start` (abstract_plugin.py, lines 89-104):
whether the plugin manages its server, the result of `get_server()` paired
with that server's `get_status()` (`none` models a missing server
resource), the message from `is_allowed_to_start`, and the package name
interpolated into the messages. -/
structure CanStartInput where
  manages_server : Bool
  server : Option ServerStatus
  is_allowed_to_start : Option String
  package_name : String

/-- The message `'{}: Error installing server dependencies.'.format(package_name)`. -/
def error_message (package_name : String) : String :=
  package_name ++ ": Error installing server dependencies."

/-- The message `'{}: Server installation in progress...'.format(package_name)`. -/
def progress_message (package_name : String) : String :=
  package_name ++ ": Server installation in progress..."

/-- Embedding of `ClientHandler.can_start` (abstract_plugin.py, lines
89-104): when the plugin manages its server, a missing server or ERROR
status returns the dependency-error message, any other non-READY status
returns the in-progress message; otherwise the `is_allowed_to_start`
message (if any) is returned, and `none` means the start may proceed. -/
def can_start (i : CanStartInput) : Option String :=
  if i.manages_server then
    match i.server with
    | none => some (error_message i.package_name)
    | some st =>
      if st = ServerStatus.error then some (error_message i.package_name)
      else if st ≠ ServerStatus.ready then some (progress_message i.package_name)
      else i.is_allowed_to_start
  else i.is_allowed_to_start

end LspUtils

namespace LspUtils

/-- C1: with no non-FileNotFound I/O fault in play, `needs_installation()`
returns false iff the destination contains the `node_modules` marker
directory and both manifests are readable with equal content hashes;
whenever it returns false it sets the status to READY, and otherwise it
returns true. -/
theorem needs_installation_false_iff_installed (w : ManifestWorld) (st : ServerStatus)
    (hs : w.readSrcManifest.faulty = false) (hd : w.readDstManifest.faulty = false) :
    ((needs_installation w st).2 = Except.ok false ↔
      w.markerDirExists = true ∧ ∃ s d, w.readSrcManifest = ReadResult.ok s ∧
        w.readDstManifest = ReadResult.ok d ∧ w.md5hex s = w.md5hex d) ∧
    ((needs_installation w st).2 = Except.ok false → (needs_installation w st).1 = ServerStatus.ready) ∧
    ((needs_installation w st).2 ≠ Except.ok false → (needs_installation w st).2 = Except.ok true) := by
  rcases w with ⟨marker, rsrc, rdst, h⟩
  cases marker <;> cases rsrc <;> cases rdst <;>
    simp_all [needs_installation, ReadResult.faulty] <;>
    rename_i s d <;>
    by_cases hEq : h s = h d <;>
    simp_all

/-- Closed instance of `needs_installation_false_iff_installed`: marker
present, both manifests read back the same single byte. -/
theorem needs_installation_false_iff_installed_witness :
    ((needs_installation ⟨true, ReadResult.ok [7], ReadResult.ok [7], fun _ => "h"⟩
        ServerStatus.uninitialized).2 = Except.ok false ↔
      (true : Bool) = true ∧ ∃ s d, ReadResult.ok [7] = ReadResult.ok s ∧
        ReadResult.ok [7] = ReadResult.ok d ∧
        (fun (_ : Bytes) => "h") s = (fun (_ : Bytes) => "h") d) ∧
    ((needs_installation ⟨true, ReadResult.ok [7], ReadResult.ok [7], fun _ => "h"⟩
        ServerStatus.uninitialized).2 = Except.ok false →
      (needs_installation ⟨true, ReadResult.ok [7], ReadResult.ok [7], fun _ => "h"⟩
        ServerStatus.uninitialized).1 = ServerStatus.ready) ∧
    ((needs_installation ⟨true, ReadResult.ok [7], ReadResult.ok [7], fun _ => "h"⟩
        ServerStatus.uninitialized).2 ≠ Except.ok false →
      (needs_installation ⟨true, ReadResult.ok [7], ReadResult.ok [7], fun _ => "h"⟩
        ServerStatus.uninitialized).2 = Except.ok true) :=
  needs_installation_false_iff_installed
    ⟨true, ReadResult.ok [7], ReadResult.ok [7], fun _ => "h"⟩
    ServerStatus.uninitialized rfl rfl

/-- C7 counterexample: with the marker present, a readable source manifest
and a destination manifest read that fails with a non-FileNotFound I/O error
("permission denied"), `needs_installation()` does not return true — the
error propagates to the caller as `Except.error`, contradicting the claim
that every I/O error during the check is absorbed. -/
theorem needs_installation_ioerror_propagates :
    (needs_installation ⟨true, ReadResult.ok [1], ReadResult.ioError "permission denied", fun _ => "h"⟩
        ServerStatus.uninitialized).2 ≠ Except.ok true ∧
    (needs_installation ⟨true, ReadResult.ok [1], ReadResult.ioError "permission denied", fun _ => "h"⟩
        ServerStatus.uninitialized).2 = Except.error "permission denied" := by
  constructor
  · intro h
    simp [needs_installation] at h
  · rfl

/-- C7 amended: only `FileNotFoundError` raised while reading either manifest
is absorbed (the call then returns true); when the marker directory is
present, any other I/O error from the source read — or from the destination
read after a successful source read — propagates to the caller. -/
theorem needs_installation_fault_handling (w : ManifestWorld) (st : ServerStatus) :
    (w.readSrcManifest.faulty = false → w.readDstManifest.faulty = false →
      ∃ b, (needs_installation w st).2 = Except.ok b) ∧
    (∀ m, w.markerDirExists = true → w.readSrcManifest = ReadResult.ioError m →
      (needs_installation w st).2 = Except.error m) ∧
    (∀ m s, w.markerDirExists = true → w.readSrcManifest = ReadResult.ok s →
      w.readDstManifest = ReadResult.ioError m →
      (needs_installation w st).2 = Except.error m) := by
  rcases w with ⟨marker, rsrc, rdst, h⟩
  cases marker <;> cases rsrc <;> cases rdst <;>
    simp_all [needs_installation, ReadResult.faulty] <;>
    rename_i s d <;>
    by_cases hEq : h s = h d <;>
    simp_all

/-- Closed instance of `needs_installation_fault_handling`: source read
fails with FileNotFoundError, which is absorbed into a `true` return. -/
theorem needs_installation_fault_handling_witness :
    ∃ b, (needs_installation ⟨true, ReadResult.fileNotFound, ReadResult.ok [2], fun _ => "h"⟩
      ServerStatus.error).2 = Except.ok b :=
  (needs_installation_fault_handling
    ⟨true, ReadResult.fileNotFound, ReadResult.ok [2], fun _ => "h"⟩
    ServerStatus.error).1 rfl rfl

/-- C10: `needs_installation()` mutates the status only on the
false-returning path, where it sets READY; whenever the call does not
return false (it returns true, or an exception propagates), the status
field — as read back by `get_status` — is exactly what it was before. -/
theorem needs_installation_frame (w : ManifestWorld) (st : ServerStatus) :
    ((needs_installation w st).2 ≠ Except.ok false →
      get_status (needs_installation w st).1 = get_status st) ∧
    ((needs_installation w st).2 = Except.ok false →
      (needs_installation w st).1 = ServerStatus.ready) := by
  rcases w with ⟨marker, rsrc, rdst, h⟩
  cases marker <;> cases rsrc <;> cases rdst <;>
    simp_all [needs_installation, get_status] <;>
    rename_i s d <;>
    by_cases hEq : h s = h d <;>
    simp_all

/-- Closed instance of `needs_installation_frame`: no marker directory, a
prior ERROR status survives a true-returning call. -/
theorem needs_installation_frame_witness :
    get_status (needs_installation ⟨false, ReadResult.ok [1], ReadResult.ok [1], fun _ => "h"⟩
      ServerStatus.error).1 = get_status ServerStatus.error :=
  (needs_installation_frame ⟨false, ReadResult.ok [1], ReadResult.ok [1], fun _ => "h"⟩
    ServerStatus.error).1 (by simp [needs_installation])

/-- C3: every `install_or_update()` call emits exactly the step sequence
remove-destination, copy-source-to-destination, check-marker-on-the-fresh-copy,
followed by the external installer step exactly when the marker directory is
absent from the fresh copy; the marker test sees the copied source tree and
is independent of the previous destination contents. -/
theorem install_or_update_order (w : PackageWorld) (st : PackageState) :
    (install_or_update w st).2.2 =
      [InstallEvent.rmtree, InstallEvent.copytree,
        InstallEvent.checkMarker (w.srcTree.hasDir ["node_modules"])] ++
      (if w.srcTree.hasDir ["node_modules"] then [] else [InstallEvent.npmInstall]) := by
  by_cases hMark : w.srcTree.hasDir ["node_modules"] <;>
    simp [install_or_update, hMark] <;>
    cases w.npm_install w.srcTree <;>
    simp

/-- C2: when the marker is absent from the fresh copy and the external
installer fails with output `e`, `install_or_update()` sets the status to
ERROR and raises an error carrying `e`; when the installer succeeds or was
not needed (marker present), it sets the status to READY and raises
nothing. -/
theorem install_or_update_status (w : PackageWorld) (st : PackageState) :
    (∀ e, w.srcTree.hasDir ["node_modules"] = false →
      w.npm_install w.srcTree = Except.error e →
      (install_or_update w st).1.status = ServerStatus.error ∧
        (install_or_update w st).2.1 = Except.error e) ∧
    (w.srcTree.hasDir ["node_modules"] = true ∨
        (∃ t, w.npm_install w.srcTree = Except.ok t) →
      (install_or_update w st).1.status = ServerStatus.ready ∧
        (install_or_update w st).2.1 = Except.ok ()) := by
  constructor
  · intro e hMark hNpm
    simp [install_or_update, hMark, hNpm]
  · rintro (hMark | ⟨t, hNpm⟩)
    · simp [install_or_update, hMark]
    · by_cases hMark : w.srcTree.hasDir ["node_modules"] <;>
        simp [install_or_update, hMark, hNpm]

/-- Closed instance of `install_or_update_status`: a one-file source tree
without the marker, an installer that fails with output "npm ERR!". -/
theorem install_or_update_status_witness :
    (install_or_update
        ⟨⟨[(["package.json"], [1])], []⟩, fun _ => Except.error "npm ERR!"⟩
        ⟨none, ServerStatus.uninitialized⟩).1.status = ServerStatus.error ∧
    (install_or_update
        ⟨⟨[(["package.json"], [1])], []⟩, fun _ => Except.error "npm ERR!"⟩
        ⟨none, ServerStatus.uninitialized⟩).2.1 = Except.error "npm ERR!" :=
  (install_or_update_status
      ⟨⟨[(["package.json"], [1])], []⟩, fun _ => Except.error "npm ERR!"⟩
      ⟨none, ServerStatus.uninitialized⟩).1 "npm ERR!" rfl rfl

/-- C6: calling `install_or_update()` twice in sequence against the same
world (same source assets, same deterministic installer environment), with
the first call succeeding, yields status READY after each call, a second
call that also succeeds, and a destination tree after the second call
identical to the one after the first. -/
theorem install_or_update_idempotent (w : PackageWorld) (st : PackageState)
    (h : (install_or_update w st).2.1 = Except.ok ()) :
    (install_or_update w st).1.status = ServerStatus.ready ∧
    (install_or_update w (install_or_update w st).1).1.status = ServerStatus.ready ∧
    (install_or_update w (install_or_update w st).1).2.1 = Except.ok () ∧
    (install_or_update w (install_or_update w st).1).1.server_dest =
      (install_or_update w st).1.server_dest := by
  by_cases hMark : w.srcTree.hasDir ["node_modules"]
  · simp [install_or_update, hMark]
  · rcases hNpm : w.npm_install w.srcTree with e | t
    · exfalso
      simp [install_or_update, hMark, hNpm] at h
    · simp [install_or_update, hMark, hNpm]

/-- Closed instance of `install_or_update_idempotent`: markerless source
tree, installer that adds the `node_modules` directory and succeeds. -/
theorem install_or_update_idempotent_witness :
    (install_or_update
        ⟨⟨[(["package.json"], [1])], []⟩,
          fun t => Except.ok ⟨t.files, t.dirs ++ [["node_modules"]]⟩⟩
        ⟨none, ServerStatus.uninitialized⟩).1.status = ServerStatus.ready ∧
    (install_or_update
        ⟨⟨[(["package.json"], [1])], []⟩,
          fun t => Except.ok ⟨t.files, t.dirs ++ [["node_modules"]]⟩⟩
        (install_or_update
          ⟨⟨[(["package.json"], [1])], []⟩,
            fun t => Except.ok ⟨t.files, t.dirs ++ [["node_modules"]]⟩⟩
          ⟨none, ServerStatus.uninitialized⟩).1).1.status = ServerStatus.ready ∧
    (install_or_update
        ⟨⟨[(["package.json"], [1])], []⟩,
          fun t => Except.ok ⟨t.files, t.dirs ++ [["node_modules"]]⟩⟩
        (install_or_update
          ⟨⟨[(["package.json"], [1])], []⟩,
            fun t => Except.ok ⟨t.files, t.dirs ++ [["node_modules"]]⟩⟩
          ⟨none, ServerStatus.uninitialized⟩).1).2.1 = Except.ok () ∧
    (install_or_update
        ⟨⟨[(["package.json"], [1])], []⟩,
          fun t => Except.ok ⟨t.files, t.dirs ++ [["node_modules"]]⟩⟩
        (install_or_update
          ⟨⟨[(["package.json"], [1])], []⟩,
            fun t => Except.ok ⟨t.files, t.dirs ++ [["node_modules"]]⟩⟩
          ⟨none, ServerStatus.uninitialized⟩).1).1.server_dest =
      (install_or_update
        ⟨⟨[(["package.json"], [1])], []⟩,
          fun t => Except.ok ⟨t.files, t.dirs ++ [["node_modules"]]⟩⟩
        ⟨none, ServerStatus.uninitialized⟩).1.server_dest :=
  install_or_update_idempotent
    ⟨⟨[(["package.json"], [1])], []⟩,
      fun t => Except.ok ⟨t.files, t.dirs ++ [["node_modules"]]⟩⟩
    ⟨none, ServerStatus.uninitialized⟩ rfl

/-- C4 counterexample: candidates ["local", "system"], the local runtime
absent, the user refusing the dialog, and a system runtime that exists and
satisfies the floor. Resolution returns no distribution at all — the
remaining "system" candidate, which on its own would resolve successfully,
is never consulted — contradicting the claim that refusal merely skips the
candidate and resolution continues in order. -/
theorem resolve_dialog_refusal_aborts_cex :
    (resolve_node_distribution
      ⟨["local", "system"], ⟨true, Except.ok (14, 0, 0)⟩,
        ⟨false, false, Except.ok (), true, Except.ok (14, 0, 0)⟩, (12, 0, 0)⟩).1 = none ∧
    (resolve_node_distribution_go
      ⟨["local", "system"], ⟨true, Except.ok (14, 0, 0)⟩,
        ⟨false, false, Except.ok (), true, Except.ok (14, 0, 0)⟩, (12, 0, 0)⟩
      ["system"]).1 = some NodeDistKind.path := by
  constructor <;> rfl

/-- C4 amended: when a ManagedLocal ("local") candidate's runtime is absent
and the user-confirmation callback returns refusal, resolution terminates
immediately as a non-error outcome (it returns no distribution rather than
raising), the remaining candidates are not consulted, and the only
user-visible event is the confirmation dialog itself. -/
theorem resolve_dialog_refusal_aborts (w : ResolveWorld) (rest : List String)
    (h1 : w.localNode.node_exists_before = false)
    (h2 : w.localNode.dialog_answer = false) :
    resolve_node_distribution_go w ("local" :: rest) = (none, [ResolveEvent.dialog]) := by
  simp [resolve_node_distribution_go, h1, h2]

/-- Closed instance of `resolve_dialog_refusal_aborts` at the world of the
counterexample. -/
theorem resolve_dialog_refusal_aborts_witness :
    resolve_node_distribution_go
      ⟨["local", "system"], ⟨true, Except.ok (14, 0, 0)⟩,
        ⟨false, false, Except.ok (), true, Except.ok (14, 0, 0)⟩, (12, 0, 0)⟩
      ("local" :: ["system"]) = (none, [ResolveEvent.dialog]) :=
  resolve_dialog_refusal_aborts
    ⟨["local", "system"], ⟨true, Except.ok (14, 0, 0)⟩,
      ⟨false, false, Except.ok (), true, Except.ok (14, 0, 0)⟩, (12, 0, 0)⟩
    ["system"] rfl rfl

/-- C5 counterexample: a first `create` call in a world where the sole
"system" candidate does not exist caches the failed outcome with the
resolved flag set; a second `create` call in a world where the system
runtime now exists and satisfies the floor still returns nothing, even
though re-running candidate resolution there would succeed — contradicting
the claim that a failed resolution is not cached and is re-run. -/
theorem create_caches_failure_cex :
    (create
      ⟨["system"], ⟨true, Except.ok (14, 0, 0)⟩,
        ⟨true, true, Except.ok (), true, Except.ok (14, 0, 0)⟩, (12, 0, 0)⟩
      (create
        ⟨["system"], ⟨false, Except.ok (14, 0, 0)⟩,
          ⟨true, true, Except.ok (), true, Except.ok (14, 0, 0)⟩, (12, 0, 0)⟩
        ⟨false, none⟩).2).1 = none ∧
    (resolve_node_distribution
      ⟨["system"], ⟨true, Except.ok (14, 0, 0)⟩,
        ⟨true, true, Except.ok (), true, Except.ok (14, 0, 0)⟩, (12, 0, 0)⟩).1 =
      some NodeDistKind.path := by
  constructor <;> rfl

/-- C5 amended: the first `create` call runs candidate resolution and wins
with the first successfully resolving candidate, but it marks resolution as
done unconditionally: when no candidate resolves, the failure itself is
cached, and every later `create` call — whatever its world — returns no
resource and leaves the cache unchanged instead of re-running resolution. -/
theorem create_resolution_caching (w w2 : ResolveWorld) :
    (create w ⟨false, none⟩).2 =
      ⟨true, (resolve_node_distribution w).1⟩ ∧
    ((resolve_node_distribution w).1 = none →
      (create w2 (create w ⟨false, none⟩).2).1 = none ∧
      (create w2 (create w ⟨false, none⟩).2).2 = (create w ⟨false, none⟩).2) ∧
    (∀ k, (resolve_node_distribution w).1 = some k →
      (create w ⟨false, none⟩).1 = some k) := by
  rcases hres : (resolve_node_distribution w).1 with _ | k <;>
    simp [create, hres]

/-- Closed instance of `create_resolution_caching` at the counterexample's
worlds: the cached failure is returned by the second call. -/
theorem create_resolution_caching_witness :
    (create
      ⟨["system"], ⟨true, Except.ok (14, 0, 0)⟩,
        ⟨true, true, Except.ok (), true, Except.ok (14, 0, 0)⟩, (12, 0, 0)⟩
      (create
        ⟨["system"], ⟨false, Except.ok (14, 0, 0)⟩,
          ⟨true, true, Except.ok (), true, Except.ok (14, 0, 0)⟩, (12, 0, 0)⟩
        ⟨false, none⟩).2).1 = none ∧
    (create
      ⟨["system"], ⟨true, Except.ok (14, 0, 0)⟩,
        ⟨true, true, Except.ok (), true, Except.ok (14, 0, 0)⟩, (12, 0, 0)⟩
      (create
        ⟨["system"], ⟨false, Except.ok (14, 0, 0)⟩,
          ⟨true, true, Except.ok (), true, Except.ok (14, 0, 0)⟩, (12, 0, 0)⟩
        ⟨false, none⟩).2).2 =
      (create
        ⟨["system"], ⟨false, Except.ok (14, 0, 0)⟩,
          ⟨true, true, Except.ok (), true, Except.ok (14, 0, 0)⟩, (12, 0, 0)⟩
        ⟨false, none⟩).2 :=
  (create_resolution_caching
    ⟨["system"], ⟨false, Except.ok (14, 0, 0)⟩,
      ⟨true, true, Except.ok (), true, Except.ok (14, 0, 0)⟩, (12, 0, 0)⟩
    ⟨["system"], ⟨true, Except.ok (14, 0, 0)⟩,
      ⟨true, true, Except.ok (), true, Except.ok (14, 0, 0)⟩, (12, 0, 0)⟩).2.1 rfl

/-- C8: with candidates ["system", "local"], a system runtime that exists
but resolves below the minimum floor, and a local runtime that is present
and meets the floor, resolution selects the local distribution without
raising; the only user-visible event is the single log line for the
discarded system candidate — in particular no dialog is shown. -/
theorem resolve_prefers_local_over_old_system (w : ResolveWorld)
    (v v' : SemanticVersion)
    (hconf : w.node_distributions = ["system", "local"])
    (hex : w.system.node_exists = true)
    (hv : w.system.resolve_version = Except.ok v)
    (hlt : verLt v w.minimum_node_version = true)
    (hlex : w.localNode.node_exists_before = true)
    (hv' : w.localNode.resolve_version = Except.ok v')
    (hge : verLt v' w.minimum_node_version = false) :
    resolve_node_distribution w = (some NodeDistKind.localDist, [ResolveEvent.log]) := by
  simp [resolve_node_distribution, hconf, resolve_node_distribution_go,
    check_node_version, hex, hv, hlt, hlex, hv', hge]

/-- Closed instance of `resolve_prefers_local_over_old_system`: system node
at 12.0.0 against a 14.0.0 floor, local node at 14.1.0. -/
theorem resolve_prefers_local_over_old_system_witness :
    resolve_node_distribution
      ⟨["system", "local"], ⟨true, Except.ok (12, 0, 0)⟩,
        ⟨true, true, Except.ok (), true, Except.ok (14, 1, 0)⟩, (14, 0, 0)⟩ =
      (some NodeDistKind.localDist, [ResolveEvent.log]) :=
  resolve_prefers_local_over_old_system
    ⟨["system", "local"], ⟨true, Except.ok (12, 0, 0)⟩,
      ⟨true, true, Except.ok (), true, Except.ok (14, 1, 0)⟩, (14, 0, 0)⟩
    (12, 0, 0) (14, 1, 0) rfl rfl rfl (by decide) rfl rfl (by decide)

/-- C9: for a plugin that manages its server, `can_start` refuses with the
dependency-error message when the server resource is missing or its status
is ERROR, refuses with the in-progress message for any other non-READY
status, the two messages are distinct for every package name, and with
status READY and no `is_allowed_to_start` objection it returns no error. -/
theorem can_start_gates_on_status (i : CanStartInput) (st : ServerStatus)
    (hm : i.manages_server = true) :
    (i.server = none ∨ i.server = some ServerStatus.error →
      can_start i = some (error_message i.package_name)) ∧
    (i.server = some st → st ≠ ServerStatus.ready → ∃ m, can_start i = some m) ∧
    (i.server = some st → st ≠ ServerStatus.error → st ≠ ServerStatus.ready →
      can_start i = some (progress_message i.package_name)) ∧
    error_message i.package_name ≠ progress_message i.package_name ∧
    (i.server = some ServerStatus.ready → i.is_allowed_to_start = none →
      can_start i = none) := by
  refine ⟨?_, ?_, ?_, ?_, ?_⟩
  · rintro (hs | hs) <;> simp [can_start, hm, hs]
  · intro hs hne
    cases st <;> simp_all [can_start, hm, hs]
  · intro hs hne hnr
    cases st <;> simp_all [can_start, hm, hs]
  · intro hcontra
    have hdata := congrArg String.data hcontra
    rw [error_message, progress_message, String.data_append, String.data_append] at hdata
    have h2 := List.append_cancel_left hdata
    exact absurd h2 (by decide)
  · intro hs ha
    simp [can_start, hm, hs, ha]

/-- Closed instance of `can_start_gates_on_status`: a managed plugin whose
server status is UNINITIALIZED receives the in-progress message. -/
theorem can_start_gates_on_status_witness :
    can_start ⟨true, some ServerStatus.uninitialized, none, "LSP-demo"⟩ =
      some (progress_message "LSP-demo") :=
  (can_start_gates_on_status ⟨true, some ServerStatus.uninitialized, none, "LSP-demo"⟩
    ServerStatus.uninitialized rfl).2.2.1 rfl (by simp) (by simp)

end LspUtils
